import Mathlib

/-!
Verification of the docker-makepkg orchestration scripts: a shallow embedding
of the container entrypoint (`run.py`), the image builder
(`containerBuilder.py`) and the host launcher (`bin/dmakepkg.py`), with
theorems about artifact harvesting, precondition checking, ownership
finalization, pump-mode negotiation, mount construction, exit-status
propagation, bridge-address discovery, the cache-enable decision and
registered teardown actions.
-/

/-- Check whether the pattern character list occurs at the head of the
subject character list. -/
def substrAt : List Char → List Char → Bool
  | [], _ => true
  | _ :: _, [] => false
  | p :: ps, c :: cs => p == c && substrAt ps cs

/-- Check whether the pattern occurs contiguously anywhere in the subject
list of characters. -/
def containsSub (pat : List Char) : List Char → Bool
  | [] => substrAt pat []
  | c :: cs => substrAt pat (c :: cs) || containsSub pat cs

/-- Python substring containment, the expression `pat in s` on strings. -/
def strContainsSubstr (s pat : String) : Bool :=
  containsSub pat.toList s.toList

/-- Python exceptions and `sys.exit` (which raises `SystemExit`) as they
occur in the modelled scripts. -/
inductive PyExc where
  | typeError
  | systemExit (code : Nat)
  deriving DecidableEq

namespace RunPy

/-- Observable side effects issued by `DmakepkgContainer.main` (run.py), in
program order.  Each constructor corresponds to one external call site:
`groupadd`/`useradd` (lines 176-177, 181), `copy_tree` (184),
`change_user_or_gid` (185, 207, 246, 248 — the gnupg-directory ownership and
permission calls of lines 205-210 are summarized by `gnupgSetup`), the two
pacman invocations (188-194), the optional `-e` command (213-215), the two
makepkg invocations (220-243), and each `shutil.copy` attempt of the harvest
loop (252-257). -/
inductive Effect where
  | groupadd (gid : Int)
  | useraddZ (uid gid : Int)
  | useraddDefault
  | copyTree
  | chownTree (uid gid : Int)
  | pacmanSy
  | pacmanSyu
  | gnupgSetup (uid gid : Int)
  | runCmd (cmd : String)
  | makepkgPump (hosts : String) (flags : List String)
  | makepkg (flags : List String)
  | copy (item : String) (ok : Bool)
  deriving DecidableEq

/-- Final fate of the entrypoint process: a `sys.exit` code or an uncaught
exception. -/
inductive Outcome where
  | exited (code : Nat)
  | raised (e : PyExc)
  deriving DecidableEq

/-- Parsed command-line namespace of run.py (lines 129-160).  `-g` and `-u`
take an optional value and default to `none` when absent; their values are
modelled as integers (run.py converts them with `int(...)`, and conversion of
a present non-numeric value is outside the scope of the claims).  `-y` and
`-z` are `store_false` flags: the field is `true` when the flag was NOT
passed.  `-p` and `-Z` are `store_true` flags.  `rest` is the list of
unrecognized arguments passed through to makepkg. -/
structure Args where
  e : Option String
  g : Option Int
  p : Bool
  u : Option Int
  y : Bool
  Z : Bool
  z : Bool
  rest : List String

/-- Environment facts run.py observes: whether `/src/PKGBUILD` is a regular
file and whether it is a symbolic link; the uid and gid `os.stat` reports for
it; the uid and gid the freshly created `build-user` receives in the non `-Z`
branch; the value of `DISTCC_HOSTS` sourced from `/etc/makepkg.conf`; the
matches of the glob `/build/*pkg.tar*` in order; and which of those
`shutil.copy` succeeds on. -/
structure World where
  pkgbuildIsFile : Bool
  pkgbuildIsLink : Bool
  statUid : Int
  statGid : Int
  buildUserUid : Int
  buildUserGid : Int
  distccHosts : String
  buildMatches : List String
  copyOk : String → Bool

/-- The class attribute `__restDefaults` of run.py line 24, split on
whitespace as in line 199. -/
def restDefaults : List String := ["--nosign", "--force", "--syncdeps", "--noconfirm"]

/-- `DmakepkgContainer.check_for_pump_mode` (run.py lines 116-122): true
exactly when `",cpp"` occurs in the sourced `DISTCC_HOSTS` value and
`self.use_pump_mode` (the `-y` store-false flag) is still true. -/
def check_for_pump_mode (distccHosts : String) (usePumpMode : Bool) : Bool :=
  strContainsSubstr distccHosts ",cpp" && usePumpMode

/-- The ownership-finalization branch of run.py lines 245-248, returning the
`(uid, gid)` pair passed to `change_user_or_gid` on `/build`, or `none` when
no call is made.  Python truthiness on the converted integers: `self.user`
is truthy iff nonzero, `not self.group` holds iff the gid is zero. -/
def ownership_finalization (user group : Int) : Option (Int × Int) :=
  if user ≠ 0 ∧ group = 0 then some (user, group)
  else if user ≠ 0 then some (user, -1)
  else none

/-- The harvest loop of run.py lines 252-257: for each glob match in order,
attempt `shutil.copy(item, "/src")`; a failure is printed and skipped, a
success appends the item to `built_packages`.  Returns the list of attempts
(match, success) in order, and the list `built_packages`. -/
def harvest : List String → (String → Bool) → List (String × Bool) × List String
  | [], _ => ([], [])
  | m :: rest, ok =>
    let r := harvest rest ok
    if ok m then ((m, true) :: r.1, m :: r.2) else ((m, false) :: r.1, r.2)

/-- Identity-provisioning effects (run.py lines 174-185): with `-Z`, a
`groupadd` and a `useradd` using the PKGBUILD's stat ids; otherwise a plain
`useradd`, a `copy_tree("/src/", "/build")` and a recursive ownership change
of `/build` to the new user's ids. -/
def provisioningEffects (a : Args) (w : World) : List Effect :=
  if a.Z then [.groupadd w.statGid, .useraddZ w.statUid w.statGid]
  else [.useraddDefault, .copyTree, .chownTree w.buildUserUid w.buildUserGid]

/-- Index-refresh effect (run.py lines 187-194): `pacman -Syu` when `-p` was
passed, plain `pacman -Sy` otherwise. -/
def pacmanEffect (p : Bool) : List Effect :=
  if p then [.pacmanSyu] else [.pacmanSy]

/-- Key-retrieval setup (run.py lines 204-210), summarized as one effect
carrying the ids passed to the `change_user_or_gid` call of line 207; runs
only while `self.download_keys` (the `-z` store-false flag) is true. -/
def keysEffects (z : Bool) (buUid buGid : Int) : List Effect :=
  if z then [.gnupgSetup buUid buGid] else []

/-- Optional pre-build command (run.py lines 213-215); Python `if
self.command:` is false for both a missing and an empty string. -/
def commandEffect : Option String → List Effect
  | some c => if c ≠ "" then [.runCmd c] else []
  | none => []

/-- Build execution (run.py lines 218-243): through `pump` with the sourced
host list when `check_for_pump_mode` holds, plain `makepkg` otherwise. -/
def buildEffect (distccHosts : String) (usePumpMode : Bool) (flags : List String) :
    List Effect :=
  if check_for_pump_mode distccHosts usePumpMode then
    [.makepkgPump distccHosts flags]
  else
    [.makepkg flags]

/-- Ownership finalization effect (run.py lines 245-248). -/
def ownershipEffect (user group : Int) : List Effect :=
  match ownership_finalization user group with
  | some p => [.chownTree p.1 p.2]
  | none => []

/-- Whether an effect is an invocation of the build through the pump
distributed-compilation front end. -/
def isPumpEffect : Effect → Bool
  | .makepkgPump _ _ => true
  | _ => false

/-- The ordered effect trace of a run of `DmakepkgContainer.main` that has
passed the precondition and argument conversions, with `user` and `group`
the converted `-u` and `-g` values.  Stage order follows the source:
identity provisioning (174-185), index refresh (187-194), flag selection
(198-202), key-retrieval setup (204-210), optional command (213-215), build
(218-243), ownership finalization (245-248) and the harvest loop (252-257).
Line 178 sets `build_user_uid` to the PKGBUILD's gid — that quirk of the
source is preserved here, and the `-Z` branch creates `build-user` with the
stat gid, so `pwd.getpwnam` reports that gid. -/
def mainTrace (a : Args) (w : World) (user group : Int) : List Effect :=
  provisioningEffects a w ++ pacmanEffect a.p
    ++ keysEffects a.z (if a.Z then w.statGid else w.buildUserUid)
        (if a.Z then w.statGid else w.buildUserGid)
    ++ commandEffect a.e
    ++ buildEffect w.distccHosts a.y (if a.rest = [] then restDefaults else a.rest)
    ++ ownershipEffect user group
    ++ (harvest w.buildMatches w.copyOk).1.map (fun q => .copy q.1 q.2)

/-- `DmakepkgContainer.main` (run.py lines 124-262) as a function from the
parsed arguments and the observed environment to the ordered effect trace
and the process outcome: PKGBUILD precondition (162-164, exiting 1),
integer conversion of `-g` then `-u` (167, 169, raising `TypeError` on a
missing value), then the staged trace, exiting 2 when `built_packages`
stayed empty and 0 otherwise (259-262). -/
def main (a : Args) (w : World) : List Effect × Outcome :=
  if !w.pkgbuildIsFile || w.pkgbuildIsLink then
    ([], .exited 1)
  else
    match a.g with
    | none => ([], .raised .typeError)
    | some group =>
      match a.u with
      | none => ([], .raised .typeError)
      | some user =>
        (mainTrace a w user group,
         if (harvest w.buildMatches w.copyOk).2 = [] then .exited 2 else .exited 0)

end RunPy

namespace Builder

/-- Address families as grouped in the dictionary `netifaces.ifaddresses`
returns; families other than `AF_INET` and `AF_INET6` (for example
`AF_PACKET`) are skipped by the scanning loop. -/
inductive AddrFamily where
  | af_inet
  | af_inet6
  | other
  deriving DecidableEq

/-- An interface address as the scanner sees it: the IP version and whether
the `ipaddress` module classifies it as link-local. -/
structure Ip where
  version : Nat
  linkLocal : Bool
  deriving DecidableEq

/-- The family loop of `DmakepkgBuilder.get_docker0_address`
(containerBuilder.py lines 58-69) over the ordered family groups of the
`ifaddresses` dictionary.  On the first `AF_INET` group with at least one
address, the first address is returned (line 61).  On the first `AF_INET6`
group with at least one address, line 65 evaluates
`ipv6_address.is_link_local()`: in the `ipaddress` module `is_link_local` is
a property yielding a `bool`, so the call raises
`TypeError: 'bool' object is not callable`, which nothing catches.  An empty
group falls through to the next family; exhausting the dictionary prints a
diagnostic and returns `None` (lines 67-69). -/
def scan_families : List (AddrFamily × List Ip) → Except PyExc (Option Ip)
  | [] => .ok none
  | (fam, addrs) :: rest =>
    match fam, addrs with
    | .af_inet, [] => scan_families rest
    | .af_inet, a :: _ => .ok (some a)
    | .af_inet6, [] => scan_families rest
    | .af_inet6, _ :: _ => .error .typeError
    | .other, _ => scan_families rest

/-- `DmakepkgBuilder.get_docker0_address` (containerBuilder.py lines 40-69).
The input is `none` when no `docker0` interface exists, in which case the
bare `except` of line 47 prints a diagnostic and calls `sys.exit(1)`
(lines 48-52); otherwise it is the ordered list of family groups of the
`ifaddresses` dictionary, handed to the scanning loop. -/
def get_docker0_address (ifaddrs : Option (List (AddrFamily × List Ip))) :
    Except PyExc (Option Ip) :=
  match ifaddrs with
  | none => .error (.systemExit 1)
  | some fams => scan_families fams

/-- The cache-enable decision at the head of `DmakepkgBuilder.main`
(containerBuilder.py lines 163-172): `self.cache` starts `true` (line 36)
and is set to `false` when no address was returned or the pacman cache
directory does not exist; an exception from address discovery (including the
`SystemExit` of a missing interface) propagates out of `main`.  Returns the
cache flag together with the stored address. -/
def builder_cache_setup (ifaddrs : Option (List (AddrFamily × List Ip)))
    (pacmanCacheExists : Bool) : Except PyExc (Bool × Option Ip) :=
  match get_docker0_address ifaddrs with
  | .error e => .error e
  | .ok ipOpt =>
    .ok (if ipOpt.isNone || !pacmanCacheExists then false else true, ipOpt)

/-- The two teardown actions `DmakepkgBuilder.main` registers with
`atexit.register` (containerBuilder.py lines 180 and 186). -/
inductive Teardown where
  | stopLocalCache
  | deleteIptablesRules
  deriving DecidableEq

/-- How the interpreter running `DmakepkgBuilder.main` terminates: a normal
exit (the `sys.exit` of line 188, reached also after an image-build failure
because `start_docker_build` swallows its exceptions), an uncaught
exception unwinding the interpreter, or death by a signal whose default
disposition kills the process (for example `SIGTERM`/`SIGKILL`). -/
inductive ExitPath where
  | normalExit
  | uncaughtException
  | unhandledSignal
  deriving DecidableEq

/-- Semantics of `atexit`, per the Python library documentation: on normal
interpreter exit — including exits driven by an uncaught exception or
`SystemExit` — the registered functions run exactly once each, in the
reverse order of registration; they are not called when the program is
killed by a signal not handled by Python (the builder installs no signal
handlers). -/
def atexit_run (registered : List Teardown) (path : ExitPath) : List Teardown :=
  match path with
  | .unhandledSignal => []
  | _ => registered.reverse

/-- Registration order in `DmakepkgBuilder.main`: `stop_local_cache` at line
180, then `delete_iptables_rules` at line 186. -/
def manager_registered : List Teardown := [.stopLocalCache, .deleteIptablesRules]

/-- The teardown actions that actually run on a given exit path of the
manager, in execution order. -/
def manager_teardown (path : ExitPath) : List Teardown :=
  atexit_run manager_registered path

end Builder

namespace Launcher

/-- `Dmakepkg.find_parameters` (bin/dmakepkg.py lines 68-79): starting from
the read-only `makepkg.conf` mount, for each of the four destination
variables in order, if the value sourced from `/etc/makepkg.conf` is
non-empty, extend the parameter list with `"-v"` and the string
`"{}:{}".format(i, value)` — the format arguments are the variable NAME and
the resolved value.  `resolve` stands for `get_var(self.makepkg_conf, ·)`. -/
def find_parameters (resolve : String → String) : List String :=
  ["SRCDEST", "PKGDEST", "SRCPKGDEST", "LOGDEST"].foldl
    (fun parameters i =>
      let value := resolve i
      if value ≠ "" then parameters ++ ["-v", i ++ ":" ++ value] else parameters)
    ["-v", "/etc/makepkg.conf:/etc/makepkg.conf:ro"]

/-- The condition of bin/dmakepkg.py lines 191-192 on one `BUILDENV` token:
it contains `"sign"` and does not start with `"!"`. -/
def sign_token_triggers (i : String) : Bool :=
  strContainsSubstr i "sign" && !(i.startsWith "!")

/-- The tail of `Dmakepkg.main` after `docker_process.wait()`
(bin/dmakepkg.py lines 187-193): the `BUILDENV` loop invokes
`sign_packages` once per token containing a non-negated signing marker, then
`main` returns; no `sys.exit` is ever called on the container's return code,
which `wait()` produces but the script never reads, so the interpreter
finishes with status 0.  Returns the launcher's exit status and the number
of `sign_packages` invocations. -/
def main_after_wait (containerCode : Int) (buildenvTokens : List String) :
    Int × Nat :=
  (0, buildenvTokens.countP sign_token_triggers)

end Launcher

section HelperLemmas

theorem harvest_eq (ms : List String) (ok : String → Bool) :
    RunPy.harvest ms ok = (ms.map (fun m => (m, ok m)), ms.filter ok) := by
  induction ms with
  | nil => rfl
  | cons m t ih => cases h : ok m <;> simp [RunPy.harvest, ih, h, List.filter_cons]

theorem filter_of_all_true {α : Type} (p : α → Bool) :
    ∀ l : List α, (∀ a ∈ l, p a = true) → l.filter p = l := by
  intro l h
  induction l with
  | nil => rfl
  | cons x t ih =>
    have hx := h x (by simp)
    exact by simp [List.filter_cons, hx, ih fun a ha => h a (by simp [ha])]

theorem main_eq_of_args (a : RunPy.Args) (w : RunPy.World) (gv uv : Int)
    (hfile : w.pkgbuildIsFile = true) (hlink : w.pkgbuildIsLink = false)
    (hg : a.g = some gv) (hu : a.u = some uv) :
    RunPy.main a w = (RunPy.mainTrace a w uv gv,
      if (RunPy.harvest w.buildMatches w.copyOk).2 = []
        then RunPy.Outcome.exited 2 else RunPy.Outcome.exited 0) := by
  simp [RunPy.main, hfile, hlink, hg, hu]

theorem any_isPump_copyMap (l : List (String × Bool)) :
    (l.map (fun q => RunPy.Effect.copy q.1 q.2)).any RunPy.isPumpEffect = false := by
  induction l with
  | nil => rfl
  | cons x t ih => simpa [RunPy.isPumpEffect] using ih

theorem any_isPump_ownershipEffect (u g : Int) :
    (RunPy.ownershipEffect u g).any RunPy.isPumpEffect = false := by
  unfold RunPy.ownershipEffect
  cases RunPy.ownership_finalization u g with
  | none => rfl
  | some p => rfl

theorem any_isPump_commandEffect (e : Option String) :
    (RunPy.commandEffect e).any RunPy.isPumpEffect = false := by
  cases e with
  | none => rfl
  | some c =>
    by_cases h : c = "" <;> simp [RunPy.commandEffect, h, RunPy.isPumpEffect]

theorem any_isPump_buildEffect (hosts : String) (usePump : Bool) (flags : List String) :
    (RunPy.buildEffect hosts usePump flags).any RunPy.isPumpEffect
      = RunPy.check_for_pump_mode hosts usePump := by
  unfold RunPy.buildEffect
  by_cases h : RunPy.check_for_pump_mode hosts usePump = true
  · simp [h, RunPy.isPumpEffect]
  · simp only [Bool.not_eq_true] at h
    simp [h, RunPy.isPumpEffect]

theorem mainTrace_any_pump (a : RunPy.Args) (w : RunPy.World) (user group : Int) :
    (RunPy.mainTrace a w user group).any RunPy.isPumpEffect
      = RunPy.check_for_pump_mode w.distccHosts a.y := by
  unfold RunPy.mainTrace
  rw [List.any_append, List.any_append, List.any_append, List.any_append,
    List.any_append, List.any_append]
  rw [any_isPump_copyMap, any_isPump_ownershipEffect, any_isPump_commandEffect,
    any_isPump_buildEffect]
  have h1 : (RunPy.provisioningEffects a w).any RunPy.isPumpEffect = false := by
    unfold RunPy.provisioningEffects
    cases a.Z <;> simp [RunPy.isPumpEffect]
  have h2 : (RunPy.pacmanEffect a.p).any RunPy.isPumpEffect = false := by
    unfold RunPy.pacmanEffect
    cases a.p <;> simp [RunPy.isPumpEffect]
  have h3 : (RunPy.keysEffects a.z (if a.Z then w.statGid else w.buildUserUid)
      (if a.Z then w.statGid else w.buildUserGid)).any RunPy.isPumpEffect = false := by
    unfold RunPy.keysEffects
    cases a.z <;> simp [RunPy.isPumpEffect]
  rw [h1, h2, h3]
  cases RunPy.check_for_pump_mode w.distccHosts a.y <;> rfl

end HelperLemmas

/-- C2: if the build descriptor `/src/PKGBUILD` is missing (not a regular
file) or is a symbolic link, `DmakepkgContainer.main` exits immediately
with status 1 and produces no side effect at all — in particular no
`useradd`/`groupadd`, no source copy and no package-index refresh, since the
effect trace is empty. -/
theorem precondition_failure_exits_one (a : RunPy.Args) (w : RunPy.World)
    (h : w.pkgbuildIsFile = false ∨ w.pkgbuildIsLink = true) :
    RunPy.main a w = ([], RunPy.Outcome.exited 1) := by
  rcases h with h | h <;> simp [RunPy.main, h]

/-- Witness for C2: with `/src/PKGBUILD` absent, the pipeline exits 1 with
an empty effect trace. -/
theorem precondition_failure_exits_one_witness :
    RunPy.main ⟨none, none, false, none, true, false, true, []⟩
      ⟨false, false, 0, 0, 0, 0, "", [], fun _ => true⟩
      = ([], RunPy.Outcome.exited 1) :=
  precondition_failure_exits_one _ _ (Or.inl rfl)

/-- C10: when the `-g` value or the `-u` value is absent, the entrypoint
raises a `TypeError` during the integer conversion of the missing value
(run.py lines 167/169) with an empty effect trace, so no user provisioning
and no package-index refresh happened; the second conjunct shows the
conversion sits after the build-descriptor precondition check, which still
wins with exit status 1 when the descriptor is missing. -/
theorem missing_uid_or_gid_raises (a : RunPy.Args) (w : RunPy.World)
    (h : a.g = none ∨ a.u = none) :
    (w.pkgbuildIsFile = true → w.pkgbuildIsLink = false →
      RunPy.main a w = ([], RunPy.Outcome.raised PyExc.typeError))
    ∧ (w.pkgbuildIsFile = false → RunPy.main a w = ([], RunPy.Outcome.exited 1)) := by
  constructor
  · intro h1 h2
    rcases h with h | h
    · simp [RunPy.main, h1, h2, h]
    · cases hg : a.g <;> simp [RunPy.main, h1, h2, h, hg]
  · intro h1
    simp [RunPy.main, h1]

/-- Witness for C10: with `-g` absent and a valid PKGBUILD, the entrypoint
raises `TypeError` before any side effect. -/
theorem missing_uid_or_gid_raises_witness :
    RunPy.main ⟨none, none, false, some 1000, true, false, true, []⟩
      ⟨true, false, 0, 0, 0, 0, "", [], fun _ => true⟩
      = ([], RunPy.Outcome.raised PyExc.typeError) :=
  (missing_uid_or_gid_raises _ _ (Or.inl rfl)).1 rfl rfl

/-- C1: with the build-descriptor precondition holding (and the `-g`/`-u`
values present, without which the run aborts before the build), if the glob
`/build/*pkg.tar*` has at least one match and every copy succeeds, the
pipeline records a successful copy of every match and exits 0; with zero
matches it exits 2; and regardless of which copies fail, a copy attempt is
recorded for every match, so one artifact's failure never prevents the
remaining attempts. -/
theorem harvest_exit_contract (a : RunPy.Args) (w : RunPy.World) (gv uv : Int)
    (hfile : w.pkgbuildIsFile = true) (hlink : w.pkgbuildIsLink = false)
    (hg : a.g = some gv) (hu : a.u = some uv) :
    ((∀ m ∈ w.buildMatches, w.copyOk m = true) → w.buildMatches ≠ [] →
      (RunPy.main a w).2 = RunPy.Outcome.exited 0
      ∧ ∀ m ∈ w.buildMatches, RunPy.Effect.copy m true ∈ (RunPy.main a w).1)
    ∧ (w.buildMatches = [] → (RunPy.main a w).2 = RunPy.Outcome.exited 2)
    ∧ (∀ m ∈ w.buildMatches, RunPy.Effect.copy m (w.copyOk m) ∈ (RunPy.main a w).1) := by
  rw [main_eq_of_args a w gv uv hfile hlink hg hu]
  have hattempt : ∀ m ∈ w.buildMatches,
      RunPy.Effect.copy m (w.copyOk m) ∈ RunPy.mainTrace a w uv gv := by
    intro m hm
    unfold RunPy.mainTrace
    apply List.mem_append_right
    rw [harvest_eq, List.map_map]
    exact List.mem_map_of_mem _ hm
  refine ⟨?_, ?_, hattempt⟩
  · intro hall hne
    have hfull : (RunPy.harvest w.buildMatches w.copyOk).2 = w.buildMatches := by
      rw [harvest_eq]
      exact filter_of_all_true _ _ hall
    constructor
    · simp [hfull, hne]
    · intro m hm
      have := hattempt m hm
      rwa [hall m hm] at this
  · intro hempty
    simp [harvest_eq, hempty]

/-- Witness for C1: a run with one matching artifact whose copy succeeds
exits 0 and records the copy into `/src`. -/
theorem harvest_exit_contract_witness :
    (RunPy.main ⟨none, some 1000, false, some 1000, true, false, true, []⟩
        ⟨true, false, 0, 0, 1001, 1001, "", ["/build/x-1.0-1-x86_64.pkg.tar.zst"],
          fun _ => true⟩).2 = RunPy.Outcome.exited 0
    ∧ RunPy.Effect.copy "/build/x-1.0-1-x86_64.pkg.tar.zst" true
      ∈ (RunPy.main ⟨none, some 1000, false, some 1000, true, false, true, []⟩
          ⟨true, false, 0, 0, 1001, 1001, "", ["/build/x-1.0-1-x86_64.pkg.tar.zst"],
            fun _ => true⟩).1 := by
  have h := (harvest_exit_contract ⟨none, some 1000, false, some 1000, true, false, true, []⟩
    ⟨true, false, 0, 0, 1001, 1001, "", ["/build/x-1.0-1-x86_64.pkg.tar.zst"], fun _ => true⟩
    1000 1000 rfl rfl rfl rfl).1 (by intro m _; rfl) (by simp)
  exact ⟨h.1, h.2 _ (by simp)⟩

/-- C4: the entrypoint engages pump/distributed-compilation mode — i.e. the
build runs through the `pump` front end — exactly when the sourced
`DISTCC_HOSTS` value contains the marker substring `",cpp"` and the pump
opt-out flag `-y` was not passed (`-y` is `store_false`, so field `y = true`
means the opt-out is unset); in particular a host list without the marker
never engages pump mode regardless of the flag. -/
theorem pump_mode_iff_marker_and_flag (a : RunPy.Args) (w : RunPy.World) (gv uv : Int)
    (hfile : w.pkgbuildIsFile = true) (hlink : w.pkgbuildIsLink = false)
    (hg : a.g = some gv) (hu : a.u = some uv) :
    ((RunPy.main a w).1.any RunPy.isPumpEffect = true ↔
      (strContainsSubstr w.distccHosts ",cpp" = true ∧ a.y = true))
    ∧ (strContainsSubstr w.distccHosts ",cpp" = false →
      (RunPy.main a w).1.any RunPy.isPumpEffect = false) := by
  rw [main_eq_of_args a w gv uv hfile hlink hg hu]
  constructor
  · rw [mainTrace_any_pump]
    unfold RunPy.check_for_pump_mode
    exact iff_of_eq (Bool.and_eq_true _ _)
  · intro h
    rw [mainTrace_any_pump]
    unfold RunPy.check_for_pump_mode
    simp [h]

/-- Witness for C4: host list `"1.2.3.4,cpp"` with the opt-out unset engages
pump mode. -/
theorem pump_mode_iff_marker_and_flag_witness :
    (RunPy.main ⟨none, some 1000, false, some 1000, true, false, true, []⟩
      ⟨true, false, 0, 0, 0, 0, "1.2.3.4,cpp", [], fun _ => true⟩).1.any
      RunPy.isPumpEffect = true :=
  (pump_mode_iff_marker_and_flag _ _ 1000 1000 rfl rfl rfl rfl).1.mpr ⟨rfl, rfl⟩

/-- C3 (refuted, code bug): the ownership-finalization branch of run.py
lines 245-248 is inverted.  With `-u 1000 -g 1000` the supplied gid is
discarded and `change_user_or_gid` receives the ownership-unchanged
sentinel `-1` instead of the gid; the gid is forwarded only when it is `0`
(Python falsy), in which case the group is remapped to root rather than
left untouched. -/
theorem ownership_finalization_inverted :
    RunPy.ownership_finalization 1000 1000 = some (1000, -1)
    ∧ RunPy.ownership_finalization 1000 0 = some (1000, 0)
    ∧ RunPy.ownership_finalization 1000 1000 ≠ some (1000, 1000) := by
  decide

/-- C5 (refuted, code bug): for a configuration resolving
`PKGDEST=/home/user/pkgs` (the other destination variables empty),
`Dmakepkg.find_parameters` emits the mount argument
`"PKGDEST:/home/user/pkgs"` — the host side is the literal variable name,
not the resolved path — and the identical-path mount
`"/home/user/pkgs:/home/user/pkgs"` the claim demands never appears; line 78
of bin/dmakepkg.py formats the loop variable `i` instead of `value` into the
host position. -/
theorem find_parameters_mounts_variable_name :
    Launcher.find_parameters (fun i => if i = "PKGDEST" then "/home/user/pkgs" else "")
      = ["-v", "/etc/makepkg.conf:/etc/makepkg.conf:ro", "-v", "PKGDEST:/home/user/pkgs"]
    ∧ "/home/user/pkgs:/home/user/pkgs" ∉
      Launcher.find_parameters (fun i => if i = "PKGDEST" then "/home/user/pkgs" else "") := by
  constructor
  · rfl
  · decide

/-- C6 counterexample: a container process that exits with status 7 still
leaves the launcher exiting with status 0, so the launcher's exit status is
not the container's. -/
theorem launcher_exit_not_propagated :
    (Launcher.main_after_wait 7 []).1 = 0 ∧ (Launcher.main_after_wait 7 []).1 ≠ 7 := by
  exact ⟨rfl, by decide⟩

/-- C6 amended: `Dmakepkg.main` waits on the container process but never
reads its return code; barring an exception the launcher's own exit status
is 0 for every container exit code, agreeing with the container's status
only when that status is itself 0.  The second component records how often
the signing pass runs. -/
theorem launcher_exit_always_zero (c : Int) (env : List String) :
    (Launcher.main_after_wait c env).1 = 0
    ∧ ((Launcher.main_after_wait c env).1 = c ↔ c = 0)
    ∧ (Launcher.main_after_wait c env).2 = env.countP Launcher.sign_token_triggers := by
  refine ⟨rfl, ?_, rfl⟩
  unfold Launcher.main_after_wait
  exact eq_comm

/-- C7 (refuted, code bug): address discovery crashes on the IPv6 path.  On
a `docker0` interface carrying a non-link-local IPv6 address enumerated
before the IPv4 family group, `get_docker0_address` raises `TypeError`
(line 65 calls the `ipaddress` property `is_link_local` as a method)
instead of returning the IPv4 address `172.17.0.1` the claim promises; the
same crash occurs when only the IPv6 address exists, where the function's
own docstring promises the first valid non-link-local address.  Only an
IPv4 group enumerated first returns an address. -/
theorem get_docker0_address_ipv6_crash :
    Builder.get_docker0_address
        (some [(Builder.AddrFamily.af_inet6, [⟨6, false⟩]),
               (Builder.AddrFamily.af_inet, [⟨4, false⟩])])
      = Except.error PyExc.typeError
    ∧ Builder.get_docker0_address (some [(Builder.AddrFamily.af_inet6, [⟨6, false⟩])])
      = Except.error PyExc.typeError
    ∧ Builder.get_docker0_address
        (some [(Builder.AddrFamily.af_inet, [⟨4, false⟩]),
               (Builder.AddrFamily.af_inet6, [⟨6, false⟩])])
      = Except.ok (some ⟨4, false⟩) :=
  ⟨rfl, rfl, rfl⟩

/-- C8 counterexample: when no `docker0` interface exists at all,
`DmakepkgBuilder.main` terminates fatally with status 1 (the `sys.exit(1)`
of line 52) instead of degrading to the cache-disabled state. -/
theorem builder_fatal_on_missing_interface :
    Builder.builder_cache_setup none true = Except.error (PyExc.systemExit 1) := rfl

/-- C8 amended: whenever the bridge interface exists and address scanning
returns (rather than raising), the cache is enabled exactly when an address
was found and the local pacman cache directory exists — either condition
failing disables the cache non-fatally; but a missing bridge interface is a
fatal exit of the manager with status 1, not a graceful degradation. -/
theorem cache_enabled_iff_address_and_dir (fams : List (Builder.AddrFamily × List Builder.Ip))
    (dir : Bool) (ipOpt : Option Builder.Ip)
    (h : Builder.scan_families fams = Except.ok ipOpt) :
    Builder.builder_cache_setup (some fams) dir = Except.ok (ipOpt.isSome && dir, ipOpt)
    ∧ Builder.builder_cache_setup none dir = Except.error (PyExc.systemExit 1) := by
  constructor
  · have hsome : Builder.get_docker0_address (some fams) = Builder.scan_families fams := rfl
    unfold Builder.builder_cache_setup
    rw [hsome, h]
    cases ipOpt <;> cases dir <;> rfl
  · rfl

/-- Witness for C8 amended: a docker0 interface with one IPv4 address and an
existing cache directory enables the cache; with no usable address the
cache is disabled without a fatal exit. -/
theorem cache_enabled_iff_address_and_dir_witness :
    Builder.builder_cache_setup (some [(Builder.AddrFamily.af_inet, [⟨4, false⟩])]) true
      = Except.ok (true, some ⟨4, false⟩)
    ∧ Builder.builder_cache_setup (some []) true = Except.ok (false, none) :=
  ⟨(cache_enabled_iff_address_and_dir [(Builder.AddrFamily.af_inet, [⟨4, false⟩])]
      true (some ⟨4, false⟩) rfl).1,
   (cache_enabled_iff_address_and_dir [] true none rfl).1⟩

/-- C9 counterexample: on termination by an unhandled signal (for example a
default-disposition `SIGTERM`), the Python interpreter skips the `atexit`
machinery, so neither registered teardown action runs — the firewall rule
removal runs zero times, not exactly once. -/
theorem teardown_skipped_on_signal :
    Builder.manager_teardown Builder.ExitPath.unhandledSignal = []
    ∧ (Builder.manager_teardown Builder.ExitPath.unhandledSignal).count
        Builder.Teardown.deleteIptablesRules = 0 := by
  decide

/-- C9 amended: on a normal return of `DmakepkgBuilder.main` (which includes
an image-build failure, swallowed inside `start_docker_build`) and on an
exit driven by an uncaught exception, the registered teardown actions run
exactly once each in reverse-acquisition order — the firewall rule is
removed before the cache server process is terminated; termination by an
unhandled signal runs no teardown action at all. -/
theorem teardown_exactly_once_reverse_order :
    Builder.manager_teardown Builder.ExitPath.normalExit
      = [Builder.Teardown.deleteIptablesRules, Builder.Teardown.stopLocalCache]
    ∧ Builder.manager_teardown Builder.ExitPath.uncaughtException
      = [Builder.Teardown.deleteIptablesRules, Builder.Teardown.stopLocalCache]
    ∧ Builder.manager_teardown Builder.ExitPath.unhandledSignal = [] := by
  decide
